import Mathlib

/-!
Shallow embedding of the deterministic masternode-registry synchronization
model of `rust-dashcore-rpc` (file `src/json/src/lib.rs`): the node state
(`DMNState`), its per-field difference (`DMNStateDiff`), the differ
(`compare_to_newer_dmn_state`), the applier (`apply_diff`), the registry
difference (`MasternodeListDiff`) with its flattening decode, and the
tri-state height deserializers (`deserialize_u32_opt`, `deserialize_u32_2opt`).

Modelling conventions:
* `u32` is `Nat` (values are produced by `as u32`, i.e. reduction mod 2^32,
  made explicit where it happens); `i64` and `i32` are `Int`.
* `SocketAddr` is kept as its textual form (`String`); only equality of
  socket addresses matters to the embedded operations.
* `[u8; 20]` and hashes are byte lists (`List Nat`); the length-20 / 32
  checks are modelled where the source performs them.
* `f32` (`operator_reward`) is modelled as `Rat`; no embedded operation
  inspects it.
* Rust's in-place `self.f = v` mutations become a pure record build.
-/

namespace DashRpc

/-- A 32-byte registration-transaction hash (`ProTxHash`), as bytes. -/
abbrev ProTxHash := List Nat

/-- `DMNState` from `src/json/src/lib.rs` (struct at lines 2060-2091):
per-node attribute record. -/
@[ext]
structure DMNState where
  service : String
  registered_height : Nat
  pose_revived_height : Option Nat
  pose_ban_height : Option Nat
  revocation_reason : Nat
  owner_address : List Nat
  voting_address : List Nat
  payout_address : List Nat
  pub_key_operator : List Nat
  operator_payout_address : Option (List Nat)
  platform_node_id : Option (List Nat)
  platform_p2p_port : Option Nat
  platform_http_port : Option Nat
deriving DecidableEq, Repr

/-- `DMNStateDiff` from `src/json/src/lib.rs` (struct at lines 2093-2112):
per-field three-way difference. `none` = unchanged; for the doubly-optional
slots `some none` = cleared, `some (some v)` = set. -/
structure DMNStateDiff where
  service : Option String
  registered_height : Option Nat
  last_paid_height : Option Nat
  consecutive_payments : Option Int
  pose_penalty : Option Nat
  pose_revived_height : Option Nat
  pose_ban_height : Option (Option Nat)
  revocation_reason : Option Nat
  owner_address : Option (List Nat)
  voting_address : Option (List Nat)
  payout_address : Option (List Nat)
  pub_key_operator : Option (List Nat)
  operator_payout_address : Option (Option (List Nat))
  platform_node_id : Option (List Nat)
  platform_p2p_port : Option Nat
  platform_http_port : Option Nat
deriving DecidableEq, Repr

/-- The all-`none` difference (every slot "unchanged"). -/
def emptyDiff : DMNStateDiff where
  service := none
  registered_height := none
  last_paid_height := none
  consecutive_payments := none
  pose_penalty := none
  pose_revived_height := none
  pose_ban_height := none
  revocation_reason := none
  owner_address := none
  voting_address := none
  payout_address := none
  pub_key_operator := none
  operator_payout_address := none
  platform_node_id := none
  platform_p2p_port := none
  platform_http_port := none

/-- The `diff` record built inside `DMNState::compare_to_newer_dmn_state`
(lines 2207-2291): each compared field is `some newer.f` exactly when the
two states disagree on `f`; `last_paid_height`, `consecutive_payments` and
`pose_penalty` are hard-coded `None` (the `//todo?` lines); for
`pose_revived_height`, `platform_node_id`, `platform_p2p_port` and
`platform_http_port` the source writes `newer.f` (already an `Option`)
rather than `Some(newer.f)`. -/
def DMNState.mkDiff (self newer : DMNState) : DMNStateDiff where
  service := if self.service ≠ newer.service then some newer.service else none
  registered_height :=
    if self.registered_height ≠ newer.registered_height then some newer.registered_height
    else none
  last_paid_height := none
  consecutive_payments := none
  pose_penalty := none
  pose_revived_height :=
    if self.pose_revived_height ≠ newer.pose_revived_height then newer.pose_revived_height
    else none
  pose_ban_height :=
    if self.pose_ban_height ≠ newer.pose_ban_height then some newer.pose_ban_height
    else none
  revocation_reason :=
    if self.revocation_reason ≠ newer.revocation_reason then some newer.revocation_reason
    else none
  owner_address :=
    if self.owner_address ≠ newer.owner_address then some newer.owner_address else none
  voting_address :=
    if self.voting_address ≠ newer.voting_address then some newer.voting_address else none
  payout_address :=
    if self.payout_address ≠ newer.payout_address then some newer.payout_address else none
  pub_key_operator :=
    if self.pub_key_operator ≠ newer.pub_key_operator then some newer.pub_key_operator
    else none
  operator_payout_address :=
    if self.operator_payout_address ≠ newer.operator_payout_address then
      some newer.operator_payout_address
    else none
  platform_node_id :=
    if self.platform_node_id ≠ newer.platform_node_id then newer.platform_node_id else none
  platform_p2p_port :=
    if self.platform_p2p_port ≠ newer.platform_p2p_port then newer.platform_p2p_port else none
  platform_http_port :=
    if self.platform_http_port ≠ newer.platform_http_port then newer.platform_http_port
    else none

/-- The `has_diff` flag of `compare_to_newer_dmn_state`: the source sets it
inside each field's inequality branch, so on return it is exactly the
disjunction of the thirteen compared inequalities. -/
def DMNState.hasDiff (self newer : DMNState) : Prop :=
  self.service ≠ newer.service ∨
  self.registered_height ≠ newer.registered_height ∨
  self.pose_revived_height ≠ newer.pose_revived_height ∨
  self.pose_ban_height ≠ newer.pose_ban_height ∨
  self.revocation_reason ≠ newer.revocation_reason ∨
  self.owner_address ≠ newer.owner_address ∨
  self.voting_address ≠ newer.voting_address ∨
  self.payout_address ≠ newer.payout_address ∨
  self.pub_key_operator ≠ newer.pub_key_operator ∨
  self.operator_payout_address ≠ newer.operator_payout_address ∨
  self.platform_node_id ≠ newer.platform_node_id ∨
  self.platform_p2p_port ≠ newer.platform_p2p_port ∨
  self.platform_http_port ≠ newer.platform_http_port

instance (s n : DMNState) : Decidable (s.hasDiff n) := by
  unfold DMNState.hasDiff; infer_instance

/-- `DMNState::compare_to_newer_dmn_state` (lines 2205-2297): returns
`Some(diff)` when any compared field differs, `None` otherwise. -/
def DMNState.compare_to_newer_dmn_state (self newer : DMNState) : Option DMNStateDiff :=
  if self.hasDiff newer then some (self.mkDiff newer) else none

/-- `DMNState::compare_to_older_dmn_state` (lines 2202-2204): delegates by
swapping arguments. -/
def DMNState.compare_to_older_dmn_state (self older : DMNState) : Option DMNStateDiff :=
  older.compare_to_newer_dmn_state self

/-- `DMNState::apply_diff` (lines 2299-2353), as a pure state transform.
The destructuring pattern ends in `..`, dropping `registered_height`,
`last_paid_height`, `consecutive_payments` and `pose_penalty`, so those
diff slots are never applied. `pose_revived_height` is assigned
unconditionally (`self.pose_revived_height = pose_revived_height;`); every
other field is guarded by `if let Some(v)`. The platform fields rewrap:
`self.platform_node_id = Some(platform_node_id)`. -/
def DMNState.apply_diff (self : DMNState) (diff : DMNStateDiff) : DMNState where
  service := diff.service.getD self.service
  registered_height := self.registered_height
  pose_revived_height := diff.pose_revived_height
  pose_ban_height := diff.pose_ban_height.getD self.pose_ban_height
  revocation_reason := diff.revocation_reason.getD self.revocation_reason
  owner_address := diff.owner_address.getD self.owner_address
  voting_address := diff.voting_address.getD self.voting_address
  payout_address := diff.payout_address.getD self.payout_address
  pub_key_operator := diff.pub_key_operator.getD self.pub_key_operator
  operator_payout_address := diff.operator_payout_address.getD self.operator_payout_address
  platform_node_id :=
    match diff.platform_node_id with
    | some v => some v
    | none => self.platform_node_id
  platform_p2p_port :=
    match diff.platform_p2p_port with
    | some v => some v
    | none => self.platform_p2p_port
  platform_http_port :=
    match diff.platform_http_port with
    | some v => some v
    | none => self.platform_http_port

/-! ### Tri-state height deserializers (`src/json/src/lib.rs` 3236-3256)

Each takes the already-deserialized `i64` wire value (the `i64::deserialize`
step of the source; a non-integer wire value fails there, outside this
model). `val as u32` on a non-negative `i64` is reduction modulo `2^32`. -/

/-- Error type standing for `serde`'s / `encode::Error` decode errors; the
payload is a diagnostic message. -/
inductive DecodeError where
  | custom (msg : String)
deriving DecidableEq, Repr

/-- `deserialize_u32_opt` (lines 3236-3245): any negative `i64` yields
`Ok(None)`; a non-negative one yields `Ok(Some(val as u32))`. -/
def deserialize_u32_opt (val : Int) : Except DecodeError (Option Nat) :=
  if val < 0 then .ok none
  else .ok (some (val.toNat % 2 ^ 32))

/-- `deserialize_u32_2opt` (lines 3247-3256): any negative `i64` yields
`Ok(Some(None))`; a non-negative one yields `Ok(Some(Some(val as u32)))`. -/
def deserialize_u32_2opt (val : Int) : Except DecodeError (Option (Option Nat)) :=
  if val < 0 then .ok (some none)
  else .ok (some (some (val.toNat % 2 ^ 32)))

/-- The `PoSeBanHeight` field of `DMNStateDiffIntermediate` (lines
2876-2883): tagged `#[serde(default, deserialize_with = "deserialize_u32_2opt")]`,
so an absent wire field takes the default `None` and a present wire integer
goes through `deserialize_u32_2opt`. -/
def decodePoSeBanHeightField (field : Option Int) :
    Except DecodeError (Option (Option Nat)) :=
  match field with
  | none => .ok none
  | some v => deserialize_u32_2opt v

/-- The `PoSeRevivedHeight` field of `DMNStateDiffIntermediate` (line 2876):
`#[serde(default, deserialize_with = "deserialize_u32_opt")]`. -/
def decodePoSeRevivedHeightField (field : Option Int) :
    Except DecodeError (Option Nat) :=
  match field with
  | none => .ok none
  | some v => deserialize_u32_opt v

/-! ### Wire-shape state difference and its fallible conversion -/

/-- `DMNStateDiffIntermediate` (lines 2862-2900): the wire-shaped difference.
Address fields are still text; `pub_key_operator` is already hex-decoded
bytes. There is no `operator_payout_address` field on the wire shape. -/
structure DMNStateDiffIntermediate where
  service : Option String
  registered_height : Option Nat
  last_paid_height : Option Nat
  consecutive_payments : Option Int
  pose_penalty : Option Nat
  pose_revived_height : Option Nat
  pose_ban_height : Option (Option Nat)
  revocation_reason : Option Nat
  owner_address : Option String
  voting_address : Option String
  platform_node_id : Option String
  platform_p2p_port : Option Nat
  platform_http_port : Option Nat
  payout_address : Option String
  pub_key_operator : Option (List Nat)
deriving DecidableEq, Repr

/-- `Address::from_str(..)?.payload_to_vec()` followed by the
`try_into().map_err(.. InvalidVectorSize ..)` length-20 check, as performed
for `owner_address`, `voting_address` and `payout_address` in
`TryFrom<DMNStateDiffIntermediate>` (lines 2136-2165). The base-58 address
parser itself lives in the `dashcore` dependency, outside this repository,
so it is a parameter `parse`. -/
def addressToBytes20 (parse : String → Except DecodeError (List Nat)) (s : String) :
    Except DecodeError (List Nat) := do
  let bs ← parse s
  if bs.length = 20 then pure bs
  else throw (.custom "InvalidVectorSize expected 20")

/-- `hex::decode(..)` followed by the length-20 `try_into` check, as
performed for `platform_node_id` (lines 2168-2178). The hex decoder lives
in a dependency, so it is a parameter `hexDecode`. -/
def hexToBytes20 (hexDecode : String → Except DecodeError (List Nat)) (s : String) :
    Except DecodeError (List Nat) := do
  let bs ← hexDecode s
  if bs.length = 20 then pure bs
  else throw (.custom "InvalidVectorSize expected 20")

/-- `TryFrom<DMNStateDiffIntermediate> for DMNStateDiff` (lines 2114-2199):
converts the three address strings and the platform-node hex string,
failing on parse error or wrong length, passes every other field through,
and hard-codes `operator_payout_address = None` (line 2166). -/
def tryFromIntermediate (parse hexDecode : String → Except DecodeError (List Nat))
    (value : DMNStateDiffIntermediate) : Except DecodeError DMNStateDiff := do
  let owner_address ← value.owner_address.mapM (addressToBytes20 parse)
  let voting_address ← value.voting_address.mapM (addressToBytes20 parse)
  let payout_address ← value.payout_address.mapM (addressToBytes20 parse)
  let operator_payout_address := none
  let platform_node_id ← value.platform_node_id.mapM (hexToBytes20 hexDecode)
  pure
    { service := value.service
      registered_height := value.registered_height
      last_paid_height := value.last_paid_height
      consecutive_payments := value.consecutive_payments
      pose_penalty := value.pose_penalty
      pose_revived_height := value.pose_revived_height
      pose_ban_height := value.pose_ban_height
      revocation_reason := value.revocation_reason
      owner_address := owner_address
      voting_address := voting_address
      payout_address := payout_address
      pub_key_operator := value.pub_key_operator
      operator_payout_address := operator_payout_address
      platform_node_id := platform_node_id
      platform_p2p_port := value.platform_p2p_port
      platform_http_port := value.platform_http_port }

/-! ### Registry difference (`MasternodeListDiff`) and its decode -/

/-- `MasternodeType` (lines 1996-1999). -/
inductive MasternodeType where
  | Regular
  | Evo
deriving DecidableEq, Repr

/-- `MasternodeListItem` (lines 2001-2014); `operator_reward : f32` is
modelled as `Rat` (no embedded operation inspects it). -/
structure MasternodeListItem where
  node_type : MasternodeType
  pro_tx_hash : ProTxHash
  collateral_hash : List Nat
  collateral_index : Nat
  collateral_address : List Nat
  operator_reward : Rat
  state : DMNState
deriving DecidableEq, Repr

/-- `MasternodeListDiffIntermediate` (lines 2916-2927): the wire shape of a
registry difference; `updated_mns` is a sequence of single-entry maps,
each map modelled as its entry list. -/
structure MasternodeListDiffIntermediate where
  base_height : Nat
  block_height : Nat
  added_mns : List MasternodeListItem
  removed_mns : List ProTxHash
  updated_mns : List (List (ProTxHash × DMNStateDiff))
deriving DecidableEq, Repr

/-- `MasternodeListDiff` (lines 2902-2914): the domain shape, with
`updated_mns` flattened. -/
structure MasternodeListDiff where
  base_height : Nat
  block_height : Nat
  added_mns : List MasternodeListItem
  removed_mns : List ProTxHash
  updated_mns : List (ProTxHash × DMNStateDiff)
deriving DecidableEq, Repr

/-- `From<MasternodeListDiffIntermediate> for MasternodeListDiff` (lines
2929-2947): an infallible conversion; `updated_mns` is
`updated_mns.into_iter().flatten().collect()`, everything else is passed
through. No disjointness check is performed. -/
def masternodeListDiffFromIntermediate (value : MasternodeListDiffIntermediate) :
    MasternodeListDiff where
  base_height := value.base_height
  block_height := value.block_height
  added_mns := value.added_mns
  removed_mns := value.removed_mns
  updated_mns := value.updated_mns.flatten

/-- An identity occurring in more than one of the added / removed / updated
collections of the wire object (the overlap §4.4 of the spec says must be
rejected). -/
def hasOverlap (value : MasternodeListDiffIntermediate) : Prop :=
  (∃ h, h ∈ value.added_mns.map MasternodeListItem.pro_tx_hash ∧ h ∈ value.removed_mns) ∨
  (∃ h, h ∈ value.added_mns.map MasternodeListItem.pro_tx_hash ∧
    h ∈ value.updated_mns.flatten.map Prod.fst) ∨
  (∃ h, h ∈ value.removed_mns ∧ h ∈ value.updated_mns.flatten.map Prod.fst)

instance (v : MasternodeListDiffIntermediate) : Decidable (hasOverlap v) := by
  unfold hasOverlap
  infer_instance

/-! ### Concrete fixtures for witnesses and counterexamples -/

/-- A concrete node state with every optional field absent. -/
def sA : DMNState where
  service := "1.2.3.4:9999"
  registered_height := 100
  pose_revived_height := none
  pose_ban_height := none
  revocation_reason := 0
  owner_address := List.replicate 20 1
  voting_address := List.replicate 20 2
  payout_address := List.replicate 20 3
  pub_key_operator := [7, 7]
  operator_payout_address := none
  platform_node_id := none
  platform_p2p_port := none
  platform_http_port := none

/-- A state differing from `sA` only in its revocation reason. -/
def sB : DMNState := { sA with revocation_reason := 1 }

/-- A state with a present PoSe revived height. -/
def sC : DMNState := { sA with pose_revived_height := some 5 }

/-- A concrete 32-byte identity. -/
def hashX : ProTxHash := List.replicate 32 9

/-- A concrete added-list entry carrying identity `hashX`. -/
def itemX : MasternodeListItem where
  node_type := .Regular
  pro_tx_hash := hashX
  collateral_hash := List.replicate 32 0
  collateral_index := 0
  collateral_address := List.replicate 20 0
  operator_reward := 0
  state := sA

/-- A wire registry difference in which identity `hashX` appears both in
`added_mns` and in `removed_mns`. -/
def overlapIntermediate : MasternodeListDiffIntermediate where
  base_height := 1
  block_height := 2
  added_mns := [itemX]
  removed_mns := [hashX]
  updated_mns := []

/-- A wire state difference with every field absent. -/
def iEmpty : DMNStateDiffIntermediate where
  service := none
  registered_height := none
  last_paid_height := none
  consecutive_payments := none
  pose_penalty := none
  pose_revived_height := none
  pose_ban_height := none
  revocation_reason := none
  owner_address := none
  voting_address := none
  platform_node_id := none
  platform_p2p_port := none
  platform_http_port := none
  payout_address := none
  pub_key_operator := none

/-- A stand-in external address/hex parser that accepts everything as a
fixed 20-byte payload. -/
def parseConst : String → Except DecodeError (List Nat) :=
  fun _ => .ok (List.replicate 20 0)

/-! ### Helper lemmas -/

/-- Whether the differ returns `Some diff` or `None`, interpreting `None` as
the empty difference gives exactly the field-wise `mkDiff` record: when
`has_diff` is false every compared field is equal, so every slot of
`mkDiff` is `none`. -/
theorem getD_compare_eq_mkDiff (s1 s2 : DMNState) :
    (s1.compare_to_newer_dmn_state s2).getD emptyDiff = s1.mkDiff s2 := by
  unfold DMNState.compare_to_newer_dmn_state
  by_cases h : s1.hasDiff s2
  · simp [h]
  · simp only [h, if_false, Option.getD_none]
    unfold DMNState.hasDiff at h
    push_neg at h
    obtain ⟨h1, h2, h3, h4, h5, h6, h7, h8, h9, h10, h11, h12, h13⟩ := h
    unfold DMNState.mkDiff emptyDiff
    simp [h1, h2, h3, h4, h5, h6, h7, h8, h9, h10, h11, h12, h13]

/-- Flattening a list of singleton lists returns the underlying elements in
order. -/
theorem flatten_map_singleton {α : Type} (l : List α) :
    (l.map (fun p => [p])).flatten = l := by
  induction l with
  | nil => rfl
  | cons a t ih => simp [ih]

/-! ### Claims -/

/-- C5: identity of the differ — for every node state `s`, comparing `s`
against itself yields `none` (no difference object at all). -/
theorem C5_compare_self_yields_none (s : DMNState) :
    s.compare_to_newer_dmn_state s = none := by
  unfold DMNState.compare_to_newer_dmn_state
  simp [DMNState.hasDiff]

/-- C8: whenever the differ produces a difference, its `last_paid_height`,
`consecutive_payments` and `pose_penalty` slots are `none` (unchanged),
regardless of the two input states. -/
theorem C8_differ_protocol_gap (s1 s2 : DMNState) (d : DMNStateDiff)
    (h : s1.compare_to_newer_dmn_state s2 = some d) :
    d.last_paid_height = none ∧ d.consecutive_payments = none ∧ d.pose_penalty = none := by
  unfold DMNState.compare_to_newer_dmn_state at h
  split at h
  · cases h
    exact ⟨rfl, rfl, rfl⟩
  · cases h

/-- Witness for C8 at the concrete pair `(sA, sB)`, which differs in the
revocation reason so the differ returns a difference. -/
theorem C8_differ_protocol_gap_witness :
    (sA.mkDiff sB).last_paid_height = none ∧
    (sA.mkDiff sB).consecutive_payments = none ∧
    (sA.mkDiff sB).pose_penalty = none :=
  C8_differ_protocol_gap sA sB (sA.mkDiff sB) (by decide)

/-- C1 fails on the code: with `s1 = s2 = sC` (a state whose PoSe revived
height is `some 5`), the differ yields no difference, and applying the
empty difference erases `pose_revived_height` (the applier assigns it
unconditionally), so the result is not `s2`. -/
theorem C1_roundtrip_counterexample :
    sC.apply_diff ((sC.compare_to_newer_dmn_state sC).getD emptyDiff) ≠ sC := by
  decide

/-- C1 (amended): the round-trip `apply(s1, difference(s1, s2) or
empty-difference) = s2` holds provided (i) the two states agree on
`registered_height` (the applier drops that slot), (ii) `s2`'s
`pose_revived_height` is absent whenever the two states agree on it (the
applier overwrites it with the slot value unconditionally), and (iii) each
of `platform_node_id`, `platform_p2p_port`, `platform_http_port` that is
absent in `s2` is also absent in `s1` (the differ emits `newer.f` itself
for those fields, so clearing them is inexpressible). -/
theorem C1_roundtrip_amended (s1 s2 : DMNState)
    (hreg : s1.registered_height = s2.registered_height)
    (hprh : s1.pose_revived_height = s2.pose_revived_height →
      s2.pose_revived_height = none)
    (hpni : s2.platform_node_id = none → s1.platform_node_id = none)
    (hp2p : s2.platform_p2p_port = none → s1.platform_p2p_port = none)
    (hhttp : s2.platform_http_port = none → s1.platform_http_port = none) :
    s1.apply_diff ((s1.compare_to_newer_dmn_state s2).getD emptyDiff) = s2 := by
  rw [getD_compare_eq_mkDiff]
  ext
  · by_cases h : s1.service = s2.service <;>
      simp [DMNState.apply_diff, DMNState.mkDiff, h]
  · simpa [DMNState.apply_diff] using hreg
  · by_cases h : s1.pose_revived_height = s2.pose_revived_height
    · simp [DMNState.apply_diff, DMNState.mkDiff, h, hprh h]
    · simp [DMNState.apply_diff, DMNState.mkDiff, h]
  · by_cases h : s1.pose_ban_height = s2.pose_ban_height <;>
      simp [DMNState.apply_diff, DMNState.mkDiff, h]
  · by_cases h : s1.revocation_reason = s2.revocation_reason <;>
      simp [DMNState.apply_diff, DMNState.mkDiff, h]
  · by_cases h : s1.owner_address = s2.owner_address <;>
      simp [DMNState.apply_diff, DMNState.mkDiff, h]
  · by_cases h : s1.voting_address = s2.voting_address <;>
      simp [DMNState.apply_diff, DMNState.mkDiff, h]
  · by_cases h : s1.payout_address = s2.payout_address <;>
      simp [DMNState.apply_diff, DMNState.mkDiff, h]
  · by_cases h : s1.pub_key_operator = s2.pub_key_operator <;>
      simp [DMNState.apply_diff, DMNState.mkDiff, h]
  · by_cases h : s1.operator_payout_address = s2.operator_payout_address <;>
      simp [DMNState.apply_diff, DMNState.mkDiff, h]
  · by_cases h : s1.platform_node_id = s2.platform_node_id
    · simp [DMNState.apply_diff, DMNState.mkDiff, h]
    · cases h2 : s2.platform_node_id with
      | none => simp [DMNState.apply_diff, DMNState.mkDiff, h, h2, hpni h2]
      | some v =>
        rw [h2] at h
        simp [DMNState.apply_diff, DMNState.mkDiff, h, h2]
  · by_cases h : s1.platform_p2p_port = s2.platform_p2p_port
    · simp [DMNState.apply_diff, DMNState.mkDiff, h]
    · cases h2 : s2.platform_p2p_port with
      | none => simp [DMNState.apply_diff, DMNState.mkDiff, h, h2, hp2p h2]
      | some v =>
        rw [h2] at h
        simp [DMNState.apply_diff, DMNState.mkDiff, h, h2]
  · by_cases h : s1.platform_http_port = s2.platform_http_port
    · simp [DMNState.apply_diff, DMNState.mkDiff, h]
    · cases h2 : s2.platform_http_port with
      | none => simp [DMNState.apply_diff, DMNState.mkDiff, h, h2, hhttp h2]
      | some v =>
        rw [h2] at h
        simp [DMNState.apply_diff, DMNState.mkDiff, h, h2]

/-- Witness for the amended C1 at the concrete pair `(sA, sB)`. -/
theorem C1_roundtrip_amended_witness :
    sA.apply_diff ((sA.compare_to_newer_dmn_state sB).getD emptyDiff) = sB :=
  C1_roundtrip_amended sA sB rfl (fun _ => rfl) (fun _ => rfl) (fun _ => rfl)
    (fun _ => rfl)

/-- C2 fails on the code: the state `sC` has `pose_revived_height = some 5`
and the empty difference leaves that slot `none` ("unchanged"), yet
`apply_diff` erases the field instead of retaining it. -/
theorem C2_frame_counterexample :
    emptyDiff.pose_revived_height = none ∧
    (sC.apply_diff emptyDiff).pose_revived_height ≠ sC.pose_revived_height := by
  decide

/-- C2 (amended): the frame property holds for every field except
`pose_revived_height`: a `none` ("unchanged") slot leaves `service`,
`pose_ban_height`, `revocation_reason`, the three addresses,
`pub_key_operator`, `operator_payout_address`, `platform_node_id`,
`platform_p2p_port` and `platform_http_port` untouched, and
`registered_height` is never overwritten at all; `pose_revived_height`,
however, is always replaced by the difference slot's value, so an
"unchanged" slot erases it rather than retaining it. -/
theorem C2_frame_amended (s : DMNState) (d : DMNStateDiff) :
    (d.service = none → (s.apply_diff d).service = s.service) ∧
    ((s.apply_diff d).registered_height = s.registered_height) ∧
    ((s.apply_diff d).pose_revived_height = d.pose_revived_height) ∧
    (d.pose_ban_height = none → (s.apply_diff d).pose_ban_height = s.pose_ban_height) ∧
    (d.revocation_reason = none →
      (s.apply_diff d).revocation_reason = s.revocation_reason) ∧
    (d.owner_address = none → (s.apply_diff d).owner_address = s.owner_address) ∧
    (d.voting_address = none → (s.apply_diff d).voting_address = s.voting_address) ∧
    (d.payout_address = none → (s.apply_diff d).payout_address = s.payout_address) ∧
    (d.pub_key_operator = none →
      (s.apply_diff d).pub_key_operator = s.pub_key_operator) ∧
    (d.operator_payout_address = none →
      (s.apply_diff d).operator_payout_address = s.operator_payout_address) ∧
    (d.platform_node_id = none →
      (s.apply_diff d).platform_node_id = s.platform_node_id) ∧
    (d.platform_p2p_port = none →
      (s.apply_diff d).platform_p2p_port = s.platform_p2p_port) ∧
    (d.platform_http_port = none →
      (s.apply_diff d).platform_http_port = s.platform_http_port) := by
  refine ⟨fun h => ?_, ?_, ?_, fun h => ?_, fun h => ?_, fun h => ?_, fun h => ?_,
    fun h => ?_, fun h => ?_, fun h => ?_, fun h => ?_, fun h => ?_, fun h => ?_⟩ <;>
    simp [DMNState.apply_diff, *]

/-- Witness for the amended C2 at the concrete pair `(sA, emptyDiff)`. -/
theorem C2_frame_amended_witness :
    (sA.apply_diff emptyDiff).service = sA.service ∧
    (sA.apply_diff emptyDiff).registered_height = sA.registered_height ∧
    (sA.apply_diff emptyDiff).pose_revived_height = emptyDiff.pose_revived_height ∧
    (sA.apply_diff emptyDiff).pose_ban_height = sA.pose_ban_height ∧
    (sA.apply_diff emptyDiff).revocation_reason = sA.revocation_reason ∧
    (sA.apply_diff emptyDiff).owner_address = sA.owner_address ∧
    (sA.apply_diff emptyDiff).voting_address = sA.voting_address ∧
    (sA.apply_diff emptyDiff).payout_address = sA.payout_address ∧
    (sA.apply_diff emptyDiff).pub_key_operator = sA.pub_key_operator ∧
    (sA.apply_diff emptyDiff).operator_payout_address = sA.operator_payout_address ∧
    (sA.apply_diff emptyDiff).platform_node_id = sA.platform_node_id ∧
    (sA.apply_diff emptyDiff).platform_p2p_port = sA.platform_p2p_port ∧
    (sA.apply_diff emptyDiff).platform_http_port = sA.platform_http_port := by
  have h := C2_frame_amended sA emptyDiff
  exact ⟨h.1 rfl, h.2.1, h.2.2.1, h.2.2.2.1 rfl, h.2.2.2.2.1 rfl, h.2.2.2.2.2.1 rfl,
    h.2.2.2.2.2.2.1 rfl, h.2.2.2.2.2.2.2.1 rfl, h.2.2.2.2.2.2.2.2.1 rfl,
    h.2.2.2.2.2.2.2.2.2.1 rfl, h.2.2.2.2.2.2.2.2.2.2.1 rfl,
    h.2.2.2.2.2.2.2.2.2.2.2.1 rfl, h.2.2.2.2.2.2.2.2.2.2.2.2 rfl⟩

/-- C3 fails on the code: the wire value `-5` is neither the sentinel `-1`
nor a valid non-negative height, yet both deserializers accept it —
`deserialize_u32_opt` yields "unset" and `deserialize_u32_2opt` yields
"cleared" — instead of returning a decode error. -/
theorem C3_malformed_sentinel_counterexample :
    (-5 : Int) ≠ -1 ∧
    deserialize_u32_opt (-5) = .ok none ∧
    deserialize_u32_2opt (-5) = .ok (some none) :=
  ⟨by decide, rfl, rfl⟩

/-- C3 (amended): every negative wire integer — not only the sentinel `-1`
— decodes without error: `deserialize_u32_opt` maps it to "unset"
(`Ok(None)`) and `deserialize_u32_2opt` to "cleared" (`Ok(Some(None))`);
no negative value is rejected. -/
theorem C3_negative_decodes_as_sentinel (v : Int) (h : v < 0) :
    deserialize_u32_opt v = .ok none ∧
    deserialize_u32_2opt v = .ok (some none) := by
  unfold deserialize_u32_opt deserialize_u32_2opt
  rw [if_pos h, if_pos h]
  exact ⟨rfl, rfl⟩

/-- Witness for the amended C3 at the concrete wire value `-5`. -/
theorem C3_negative_decodes_as_sentinel_witness :
    deserialize_u32_opt (-5) = .ok none ∧
    deserialize_u32_2opt (-5) = .ok (some none) :=
  C3_negative_decodes_as_sentinel (-5) (by decide)

/-- C4 fails on the code: `overlapIntermediate` places identity `hashX`
both in `added_mns` and in `removed_mns`, yet the conversion to
`MasternodeListDiff` is infallible — it succeeds and silently carries both
occurrences through instead of raising a decode error. -/
theorem C4_overlap_counterexample :
    hasOverlap overlapIntermediate ∧
    masternodeListDiffFromIntermediate overlapIntermediate =
      { base_height := 1, block_height := 2, added_mns := [itemX],
        removed_mns := [hashX], updated_mns := [] } := by
  exact ⟨by decide, rfl⟩

/-- C4 (amended): decoding performs no disjointness check at all — the
wire-to-domain conversion is total, and even for an input in which some
identity appears in more than one of the added/removed/updated
collections it succeeds, passing the added and removed collections through
unchanged and flattening the updated one. -/
theorem C4_no_disjointness_check (v : MasternodeListDiffIntermediate)
    (_h : hasOverlap v) :
    (masternodeListDiffFromIntermediate v).base_height = v.base_height ∧
    (masternodeListDiffFromIntermediate v).block_height = v.block_height ∧
    (masternodeListDiffFromIntermediate v).added_mns = v.added_mns ∧
    (masternodeListDiffFromIntermediate v).removed_mns = v.removed_mns ∧
    (masternodeListDiffFromIntermediate v).updated_mns = v.updated_mns.flatten :=
  ⟨rfl, rfl, rfl, rfl, rfl⟩

/-- Witness for the amended C4 at the concrete overlapping fixture. -/
theorem C4_no_disjointness_check_witness :
    (masternodeListDiffFromIntermediate overlapIntermediate).base_height =
      overlapIntermediate.base_height ∧
    (masternodeListDiffFromIntermediate overlapIntermediate).block_height =
      overlapIntermediate.block_height ∧
    (masternodeListDiffFromIntermediate overlapIntermediate).added_mns =
      overlapIntermediate.added_mns ∧
    (masternodeListDiffFromIntermediate overlapIntermediate).removed_mns =
      overlapIntermediate.removed_mns ∧
    (masternodeListDiffFromIntermediate overlapIntermediate).updated_mns =
      overlapIntermediate.updated_mns.flatten :=
  C4_no_disjointness_check overlapIntermediate (by decide)

/-- C6: the `PoSeBanHeight` field of a wire state difference decodes
tri-state — wire `-1` to "cleared" (`Some(None)`), a non-negative wire
integer `n` (a height fitting `u32`) to "set(n)" (`Some(Some(n))`), and an
absent field to "unchanged" (`None`) — and the three resulting in-memory
values are pairwise distinct. -/
theorem C6_tristate_ban_height (n : Int) (h0 : 0 ≤ n) (h32 : n < 2 ^ 32) :
    decodePoSeBanHeightField (some (-1)) = .ok (some none) ∧
    decodePoSeBanHeightField (some n) = .ok (some (some n.toNat)) ∧
    decodePoSeBanHeightField none = .ok none ∧
    (some (some n.toNat) : Option (Option Nat)) ≠ some none ∧
    (some (some n.toNat) : Option (Option Nat)) ≠ none ∧
    (some (none : Option Nat) : Option (Option Nat)) ≠ none := by
  refine ⟨rfl, ?_, rfl, by simp, by simp, by simp⟩
  show deserialize_u32_2opt n = .ok (some (some n.toNat))
  unfold deserialize_u32_2opt
  rw [if_neg (by omega)]
  have hmod : n.toNat % 2 ^ 32 = n.toNat := Nat.mod_eq_of_lt (by omega)
  rw [hmod]

/-- Witness for C6 at the concrete wire height `5`. -/
theorem C6_tristate_ban_height_witness :
    decodePoSeBanHeightField (some (-1)) = .ok (some none) ∧
    decodePoSeBanHeightField (some 5) = .ok (some (some (5 : Int).toNat)) ∧
    decodePoSeBanHeightField none = .ok none ∧
    (some (some (5 : Int).toNat) : Option (Option Nat)) ≠ some none ∧
    (some (some (5 : Int).toNat) : Option (Option Nat)) ≠ none ∧
    (some (none : Option Nat) : Option (Option Nat)) ≠ none :=
  C6_tristate_ban_height 5 (by decide) (by decide)

/-- C7: when the wire `updatedMNs` sequence consists of `N` single-entry
maps, the decoded registry difference's updated collection is the flat
list of those `N` (identity, difference) pairs in source order. -/
theorem C7_flatten_singletons (v : MasternodeListDiffIntermediate)
    (l : List (ProTxHash × DMNStateDiff))
    (h : v.updated_mns = l.map (fun p => [p])) :
    (masternodeListDiffFromIntermediate v).updated_mns = l ∧
    (masternodeListDiffFromIntermediate v).updated_mns.length =
      v.updated_mns.length := by
  have hf := flatten_map_singleton l
  constructor
  · show v.updated_mns.flatten = l
    rw [h, hf]
  · show v.updated_mns.flatten.length = v.updated_mns.length
    rw [h, hf, List.length_map]

/-- A first concrete updated-collection entry. -/
def updPair1 : ProTxHash × DMNStateDiff := (List.replicate 32 1, emptyDiff)

/-- A second concrete updated-collection entry. -/
def updPair2 : ProTxHash × DMNStateDiff := (List.replicate 32 2, emptyDiff)

/-- A wire registry difference whose updated collection is two single-entry
maps. -/
def updIntermediate : MasternodeListDiffIntermediate where
  base_height := 1
  block_height := 2
  added_mns := []
  removed_mns := []
  updated_mns := [[updPair1], [updPair2]]

/-- Witness for C7 at the two-singleton fixture. -/
theorem C7_flatten_singletons_witness :
    (masternodeListDiffFromIntermediate updIntermediate).updated_mns =
      [updPair1, updPair2] ∧
    (masternodeListDiffFromIntermediate updIntermediate).updated_mns.length =
      updIntermediate.updated_mns.length :=
  C7_flatten_singletons updIntermediate [updPair1, updPair2] rfl

/-- C9: whatever the wire input and whatever the external address and hex
parsers do, a successful conversion of a wire state difference always
yields `operator_payout_address = none` ("unchanged") — the decoder
hard-codes that slot, discarding any wire information about it. -/
theorem C9_operator_payout_discarded
    (parse hexDecode : String → Except DecodeError (List Nat))
    (i : DMNStateDiffIntermediate) (d : DMNStateDiff)
    (h : tryFromIntermediate parse hexDecode i = .ok d) :
    d.operator_payout_address = none := by
  unfold tryFromIntermediate at h
  simp only [Bind.bind, Except.bind, Pure.pure, Except.pure] at h
  repeat' split at h
  all_goals cases h
  all_goals rfl

/-- Witness for C9: the all-absent wire difference decodes (with a constant
stand-in parser) to the empty difference, whose operator-payout slot is
`none`. -/
theorem C9_operator_payout_discarded_witness :
    emptyDiff.operator_payout_address = none :=
  C9_operator_payout_discarded parseConst parseConst iEmpty emptyDiff rfl

/-- C10: numeric truncation — for every non-negative wire integer `v` that
fits in `i64`, the tri-state height deserializers accept it and yield
`set(v mod 2^32)` (the Rust `as u32` cast), wrapping values of `2^32` or
more instead of rejecting them. -/
theorem C10_truncation (v : Int) (h0 : 0 ≤ v) (h63 : v < 2 ^ 63) :
    deserialize_u32_opt v = .ok (some (v.toNat % 2 ^ 32)) ∧
    deserialize_u32_2opt v = .ok (some (some (v.toNat % 2 ^ 32))) := by
  unfold deserialize_u32_opt deserialize_u32_2opt
  rw [if_neg (by omega), if_neg (by omega)]
  exact ⟨rfl, rfl⟩

/-- Witness for C10 at `v = 2^32`, which wraps to `0`. -/
theorem C10_truncation_witness :
    deserialize_u32_opt (2 ^ 32) = .ok (some ((2 ^ 32 : Int).toNat % 2 ^ 32)) ∧
    deserialize_u32_2opt (2 ^ 32) = .ok (some (some ((2 ^ 32 : Int).toNat % 2 ^ 32))) ∧
    (2 ^ 32 : Int).toNat % 2 ^ 32 = 0 := by
  have h := C10_truncation (2 ^ 32) (by decide) (by decide)
  exact ⟨h.1, h.2, by decide⟩

end DashRpc
